import Mathlib

/-!
Verification of the contact-book core in `2_task.py`.

The Python source is shallowly embedded: dates become a `Date` structure over
`Nat` with the standard civil-calendar day count for date arithmetic; `Phone`
and `Birthday` field objects are represented by their validated payloads;
exceptions become `Except`/`Option` results carrying the Python exception kind
and message; the order-preserving `dict` backing `AddressBook` becomes an
association list with in-place update.
-/

set_option maxHeartbeats 1000000

/-- Gregorian leap-year test, as used by Python's `datetime` module. -/
def isLeap (y : Nat) : Bool := (y % 4 == 0 && y % 100 != 0) || y % 400 == 0

/-- Number of days in a month, as used by Python's `datetime` module. -/
def daysInMonth (y m : Nat) : Nat :=
  if m = 2 then (if isLeap y then 29 else 28)
  else if m = 4 ∨ m = 6 ∨ m = 9 ∨ m = 11 then 30
  else 31

/-- A calendar date, modelling Python's `datetime.date`. -/
structure Date where
  year : Nat
  month : Nat
  day : Nat
  deriving DecidableEq, Repr

/-- Validity of a `Date`, exactly the checks performed by the
`datetime.date` constructor (`MINYEAR = 1`, `MAXYEAR = 9999`). -/
def validDate (d : Date) : Bool :=
  decide (1 ≤ d.year ∧ d.year ≤ 9999 ∧ 1 ≤ d.month ∧ d.month ≤ 12 ∧
    1 ≤ d.day ∧ d.day ≤ daysInMonth d.year d.month)

/-- Day count of a date (days since 0000-03-01, standard civil-from-days
formula).  Differences of `toRD` model Python's `(a - b).days`. -/
def toRD (d : Date) : Nat :=
  let y := if d.month ≤ 2 then d.year - 1 else d.year
  let m := if d.month ≤ 2 then d.month + 9 else d.month - 3
  let doy := (153 * m + 2) / 5 + d.day - 1
  let doe := (y % 400) * 365 + (y % 400) / 4 - (y % 400) / 100 + doy
  (y / 400) * 146097 + doe

/-- `dayDiff a b` models Python's `(a - b).days` for dates. -/
def dayDiff (a b : Date) : Int := (toRD a : Int) - (toRD b : Int)

/-- Weekday rendering of `date.strftime("%A")`.  The day count `toRD` is
anchored so that residue 0 falls on a Wednesday (0000-03-01). -/
def weekdayName (d : Date) : String :=
  match toRD d % 7 with
  | 0 => "Wednesday"
  | 1 => "Thursday"
  | 2 => "Friday"
  | 3 => "Saturday"
  | 4 => "Sunday"
  | 5 => "Monday"
  | _ => "Tuesday"

/-- Python's `date.replace(year=y)`: keeps month and day, re-running the
`datetime.date` constructor checks, which raise `ValueError` (year range
first, then day-of-month) on an invalid result. -/
def replaceYear (b : Date) (y : Nat) : Except String Date :=
  if y < 1 ∨ 9999 < y then .error ("year " ++ Nat.repr y ++ " is out of range")
  else if b.day ≤ daysInMonth y b.month then .ok ⟨y, b.month, b.day⟩
  else .error "day is out of range for month"

/-- The exception kinds raised by the core: Python `ValueError` and the
custom `NumberVerificationError`, each with its message. -/
inductive PyErr where
  | valueError (msg : String)
  | numberVerificationError (msg : String)
  deriving DecidableEq, Repr

/-- `str(e)` for a modelled exception. -/
def PyErr.message : PyErr → String
  | .valueError m => m
  | .numberVerificationError m => m

/-- Message of the `NumberVerificationError` raised by the `Phone` field. -/
def phoneDigitsMsg : String := "Phone number must contain exactly 10 digits"

/-- Numeric value of an ASCII digit character. -/
def digitVal (c : Char) : Nat := c.toNat - 48

/-- Code-point ranges (inclusive) of the non-ASCII characters for which
CPython's `str.isdigit` returns true (Unicode `Numeric_Type` Decimal or
Digit; Unicode 14.0, as shipped with CPython 3.11), enumerated exhaustively
from the interpreter's Unicode tables. -/
def pyDigitRanges : List (Nat × Nat) :=
  [(178, 179), (185, 185), (1632, 1641), (1776, 1785), (1984, 1993), (2406, 2415), (2534,
  2543), (2662, 2671), (2790, 2799), (2918, 2927), (3046, 3055), (3174, 3183), (3302, 3311),
  (3430, 3439), (3558, 3567), (3664, 3673), (3792, 3801), (3872, 3881), (4160, 4169), (4240,
  4249), (4969, 4977), (6112, 6121), (6160, 6169), (6470, 6479), (6608, 6618), (6784, 6793),
  (6800, 6809), (6992, 7001), (7088, 7097), (7232, 7241), (7248, 7257), (8304, 8304), (8308,
  8313), (8320, 8329), (9312, 9320), (9332, 9340), (9352, 9360), (9450, 9450), (9461, 9469),
  (9471, 9471), (10102, 10110), (10112, 10120), (10122, 10130), (42528, 42537), (43216,
  43225), (43264, 43273), (43472, 43481), (43504, 43513), (43600, 43609), (44016, 44025),
  (65296, 65305), (66720, 66729), (68160, 68163), (68912, 68921), (69216, 69224), (69714,
  69722), (69734, 69743), (69872, 69881), (69942, 69951), (70096, 70105), (70384, 70393),
  (70736, 70745), (70864, 70873), (71248, 71257), (71360, 71369), (71472, 71481), (71904,
  71913), (72016, 72025), (72784, 72793), (73040, 73049), (73120, 73129), (92768, 92777),
  (92864, 92873), (93008, 93017), (120782, 120831), (123200, 123209), (123632, 123641),
  (125264, 125273), (127232, 127242), (130032, 130041)]

/-- Python's per-character digit test used by `str.isdigit`: ASCII `0`-`9`
or one of the non-ASCII Unicode digit characters. -/
def pyCharIsDigit (c : Char) : Bool :=
  c.isDigit || pyDigitRanges.any (fun r => decide (r.1 ≤ c.toNat) && decide (c.toNat ≤ r.2))

/-- Python's `str.isdigit`: true iff the string is nonempty and every
character is a digit character. -/
def pyIsDigit (s : String) : Bool := !s.data.isEmpty && s.data.all pyCharIsDigit

/-- The `Phone` field constructor: `if not value.isdigit() or len(value) != 10`
raise `NumberVerificationError`, else store the string unchanged. -/
def mkPhone (raw : String) : Except PyErr String :=
  if !pyIsDigit raw || raw.length != 10 then
    .error (.numberVerificationError phoneDigitsMsg)
  else .ok raw

/-- Start code points of the 66 decimal-digit blocks (Unicode category `Nd`,
Unicode 14.0): each block is ten consecutive code points with decimal values
0 through 9, which is what `\\d` matches in CPython's Unicode regexes and
what `int()` converts positionally. -/
def ndBlockStarts : List Nat :=
  [48, 1632, 1776, 1984, 2406, 2534, 2662, 2790, 2918, 3046, 3174, 3302, 3430, 3558, 3664,
  3792, 3872, 4160, 4240, 6112, 6160, 6470, 6608, 6784, 6800, 6992, 7088, 7232, 7248, 42528,
  43216, 43264, 43472, 43504, 43600, 44016, 65296, 66720, 68912, 69734, 69872, 69942, 70096,
  70384, 70736, 70864, 71248, 71360, 71472, 71904, 72016, 72784, 73040, 73120, 92768, 92864,
  93008, 120782, 120792, 120802, 120812, 120822, 123200, 123632, 125264, 130032]

/-- Membership in Unicode category `Nd` (a decimal digit, `\\d` in CPython's
`re`). -/
def isNd (c : Char) : Bool :=
  ndBlockStarts.any (fun s => decide (s ≤ c.toNat) && decide (c.toNat ≤ s + 9))

/-- Decimal value of an `Nd` character: its offset in its digit block (this
is the value `int()` assigns the character).  Zero for non-digits (unused). -/
def ndVal (c : Char) : Nat :=
  match ndBlockStarts.find? (fun s => decide (s ≤ c.toNat) && decide (c.toNat ≤ s + 9)) with
  | some s => c.toNat - s
  | none => 0

/-- The `%d` field of `strptime("%d.%m.%Y")`.  CPython compiles `%d` to the
regex alternation `3[01]|[12]\\d|0[1-9]|[1-9]`: the literals and character
classes match ASCII only, but `\\d` matches any Unicode decimal digit, and
`int()` then converts the matched digits positionally.  Ordered alternation
with the following literal dot makes the match deterministic.  Returns the
day value and the unconsumed input. -/
def parseDay : List Char → Option (Nat × List Char)
  | c0 :: c1 :: rest =>
    if c0 = '3' ∧ (c1 = '0' ∨ c1 = '1') then some (30 + digitVal c1, rest)
    else if (c0 = '1' ∨ c0 = '2') ∧ isNd c1 = true then
      some (10 * digitVal c0 + ndVal c1, rest)
    else if c0 = '0' ∧ ('1' ≤ c1 ∧ c1 ≤ '9') then some (digitVal c1, rest)
    else if '1' ≤ c0 ∧ c0 ≤ '9' then some (digitVal c0, c1 :: rest)
    else none
  | [c0] => if '1' ≤ c0 ∧ c0 ≤ '9' then some (digitVal c0, []) else none
  | [] => none

/-- The `%m` field of `strptime`: regex `1[0-2]|0[1-9]|[1-9]`, all-ASCII
classes (no `\\d` here). -/
def parseMonth : List Char → Option (Nat × List Char)
  | c0 :: c1 :: rest =>
    if c0 = '1' ∧ (c1 = '0' ∨ c1 = '1' ∨ c1 = '2') then some (10 + digitVal c1, rest)
    else if c0 = '0' ∧ ('1' ≤ c1 ∧ c1 ≤ '9') then some (digitVal c1, rest)
    else if '1' ≤ c0 ∧ c0 ≤ '9' then some (digitVal c0, c1 :: rest)
    else none
  | [c0] => if '1' ≤ c0 ∧ c0 ≤ '9' then some (digitVal c0, []) else none
  | [] => none

/-- The `%Y` field of `strptime`: regex `\\d\\d\\d\\d` — exactly four Unicode
decimal digits, which must also exhaust the input (`strptime` requires the
whole string to be consumed); `int()` converts them positionally. -/
def parse4 : List Char → Option Nat
  | [a, b, c, d] =>
    if isNd a && isNd b && isNd c && isNd d then
      some (1000 * ndVal a + 100 * ndVal b + 10 * ndVal c + ndVal d)
    else none
  | _ => none

/-- `datetime.strptime(s, "%d.%m.%Y").date()`: day field, literal dot, month
field, literal dot, four-digit year, then the `datetime` constructor checks
(day must fit the month of that year). -/
def parseDMY (s : String) : Option Date :=
  match parseDay s.data with
  | none => none
  | some (dd, r1) =>
    match r1 with
    | '.' :: r2 =>
      match parseMonth r2 with
      | none => none
      | some (mm, r3) =>
        match r3 with
        | '.' :: r4 =>
          match parse4 r4 with
          | none => none
          | some yy => if validDate ⟨yy, mm, dd⟩ then some ⟨yy, mm, dd⟩ else none
        | _ => none
    | _ => none

/-- Message of the `ValueError` raised by the `Birthday` field. -/
def invalidDateMsg : String := "Invalid date format. Use DD.MM.YYYY"

/-- The `Birthday` field constructor: parse with `strptime("%d.%m.%Y")`,
translating any parse failure into the fixed `ValueError` message. -/
def mkBirthday (raw : String) : Except PyErr Date :=
  match parseDMY raw with
  | some d => .ok d
  | none => .error (.valueError invalidDateMsg)

/-- Two-digit zero-padded rendering, as `strftime("%d")` / `("%m")`. -/
def pad2 (n : Nat) : List Char :=
  if n < 10 then ['0', Nat.digitChar n]
  else [Nat.digitChar (n / 10), Nat.digitChar (n % 10)]

/-- Four-digit zero-padded rendering of a year, as `strftime("%Y")`
(per the Python documentation; years here are at most 9999). -/
def pad4 (n : Nat) : List Char :=
  [Nat.digitChar (n / 1000), Nat.digitChar (n / 100 % 10),
   Nat.digitChar (n / 10 % 10), Nat.digitChar (n % 10)]

/-- `date.strftime("%d.%m.%Y")`. -/
def fmtDMY (d : Date) : String :=
  ⟨pad2 d.day ++ '.' :: pad2 d.month ++ '.' :: pad4 d.year⟩

/-- One contact: validated name, ordered phone values (each `Phone` object
represented by its `.value` string), optional birthday. -/
structure Record where
  name : String
  phones : List String
  birthday : Option Date
  deriving DecidableEq, Repr

/-- `Record.__init__`: the `Name` field rejects an empty (falsy) string with
`ValueError`; phones start empty, birthday unset. -/
def mkRecord (name : String) : Except PyErr Record :=
  if name = "" then .error (.valueError "Name cannot be empty")
  else .ok ⟨name, [], none⟩

/-- `Record.remove_phone`: keep exactly the phones whose value differs. -/
def Record.remove_phone (r : Record) (phone : String) : Record :=
  { r with phones := r.phones.filter (fun p => p != phone) }

/-- Message of the `ValueError` raised by `edit_phone` on a missing phone. -/
def notFoundMsg : String := "Old phone number not found"

/-- The loop of `Record.edit_phone` over the phone list: at the first value
equal to `old`, construct `Phone(new)` (which may raise) and assign its value
in place; if the loop finishes, raise `ValueError`.  The result pairs the
exception (if any) with the final state of the list, so that partial-mutation
behaviour is visible. -/
def editPhoneList (old new : String) : List String → Option PyErr × List String
  | [] => (some (.valueError notFoundMsg), [])
  | p :: ps =>
    if p = old then
      match mkPhone new with
      | .error e => (some e, p :: ps)
      | .ok v => (none, v :: ps)
    else
      let r := editPhoneList old new ps
      (r.1, p :: r.2)

/-- `Record.edit_phone`, returning the raised exception (if any) and the
record state after the call. -/
def Record.edit_phone (r : Record) (old new : String) : Option PyErr × Record :=
  let res := editPhoneList old new r.phones
  (res.1, { r with phones := res.2 })

/-- The loop of `Record.find_phone`: first phone with the given value. -/
def findPhoneList (l : List String) (phone : String) : Option String :=
  l.find? (fun p => p == phone)

/-- `Record.find_phone`. -/
def Record.find_phone (r : Record) (phone : String) : Option String :=
  findPhoneList r.phones phone

/-- `Record.add_phone`: validate, then append. -/
def Record.add_phone (r : Record) (phone : String) : Except PyErr Record :=
  match mkPhone phone with
  | .error e => .error e
  | .ok v => .ok { r with phones := r.phones ++ [v] }

/-- `Record.add_birthday`: validate, then overwrite. -/
def Record.add_birthday (r : Record) (raw : String) : Except PyErr Record :=
  match mkBirthday raw with
  | .error e => .error e
  | .ok d => .ok { r with birthday := some d }

/-- The insertion-ordered `dict` backing `AddressBook`, as an association
list: `dict[k] = v` updates an existing key in place, else appends. -/
abbrev AddressBook := List (String × Record)

/-- `self.data[k] = v` on an insertion-ordered `dict`. -/
def dictSet : List (String × Record) → String → Record → List (String × Record)
  | [], k, v => [(k, v)]
  | (k0, v0) :: rest, k, v =>
    if k0 = k then (k0, v) :: rest else (k0, v0) :: dictSet rest k v

/-- `self.data.get(k, None)`. -/
def dictGet : List (String × Record) → String → Option Record
  | [], _ => none
  | (k0, v0) :: rest, k => if k0 = k then some v0 else dictGet rest k

/-- `del self.data[k]` (keys are unique, so removing the first match). -/
def dictDel : List (String × Record) → String → List (String × Record)
  | [], _ => []
  | (k0, v0) :: rest, k => if k0 = k then rest else (k0, v0) :: dictDel rest k

/-- `AddressBook.add_record`: `self.data[record.name.value] = record`. -/
def AddressBook.add_record (b : AddressBook) (r : Record) : AddressBook :=
  dictSet b r.name r

/-- `AddressBook.find`. -/
def AddressBook.find (b : AddressBook) (name : String) : Option Record :=
  dictGet b name

/-- `AddressBook.delete`: delete if present, else no-op. -/
def AddressBook.delete (b : AddressBook) (name : String) : AddressBook :=
  dictDel b name

/-- `self.values()`: records in insertion order. -/
def AddressBook.values (b : AddressBook) : List Record :=
  b.map Prod.snd

/-- The record loop of the `birthdays` command: per record with a birthday,
candidate `bday.replace(year=today.year)`; if its day difference from
`today` is negative, recompute with `year=today.year+1`; include the record
when the final difference lies in `0..7`.  A `ValueError` raised by
`replace` aborts the whole computation (the decorator reports only the
message).  Entries are `(name, resolved date)` in input order. -/
def birthdaysCore (today : Date) : List Record → Except String (List (String × Date))
  | [] => .ok []
  | r :: rs =>
    match r.birthday with
    | none => birthdaysCore today rs
    | some b =>
      match replaceYear b today.year with
      | .error e => .error e
      | .ok c1 =>
        match (if dayDiff c1 today < 0 then replaceYear b (today.year + 1) else .ok c1) with
        | .error e => .error e
        | .ok c =>
          match birthdaysCore today rs with
          | .error e => .error e
          | .ok rest =>
            .ok (if 0 ≤ dayDiff c today ∧ dayDiff c today ≤ 7 then (r.name, c) :: rest else rest)

/-- Rendering of one upcoming-birthday line:
`f"{name}: {d.strftime('%A')} ({d.strftime('%d.%m.%Y')})"`. -/
def renderEntry (e : String × Date) : String :=
  e.1 ++ ": " ++ weekdayName e.2 ++ " (" ++ fmtDMY e.2 ++ ")"

/-- The string returned by the `birthdays` command body for a given value of
`today`: the `ValueError` message if `replace` raised (the `input_error`
decorator turns it into `str(e)`), the fixed message on an empty match list,
else the newline-joined rendered entries. -/
def birthdaysStr (today : Date) (recs : List Record) : String :=
  match birthdaysCore today recs with
  | .error e => e
  | .ok [] => "No birthdays next week"
  | .ok entries => String.intercalate "\n" (entries.map renderEntry)

/-- The `birthdays` command as written: its Python parameters are `args`
(unused) and `book`; the reference date is *not* a parameter but the value
read from the global clock by `datetime.today().date()`, modelled here by
the extra `clockToday` input describing the environment. -/
def birthdays (clockToday : Date) (args : List String) (book : AddressBook) : String :=
  birthdaysStr clockToday (AddressBook.values book)

/-- `add_contact(args, book)`: unpack `name, phone, *_`; fetch or create the
record (creation registers it in the book *before* the phone is validated);
then, when `phone` is truthy (nonempty), `add_phone` validates it, the
decorator translating a raised exception into its message.  Returns the
printed message and the book state after the call. -/
def add_contact (args : List String) (book : AddressBook) : String × AddressBook :=
  match args with
  | name :: phone :: _ =>
    match AddressBook.find book name with
    | some r =>
      if phone = "" then ("Contact updated.", book)
      else
        match mkPhone phone with
        | .error e => (PyErr.message e, book)
        | .ok v => ("Contact updated.", dictSet book name { r with phones := r.phones ++ [v] })
    | none =>
      if name = "" then ("Name cannot be empty", book)
      else
        if phone = "" then ("Contact added.", dictSet book name ⟨name, [], none⟩)
        else
          match mkPhone phone with
          | .error e => (PyErr.message e, dictSet book name ⟨name, [], none⟩)
          | .ok v => ("Contact added.", dictSet (dictSet book name ⟨name, [], none⟩) name ⟨name, [v], none⟩)
  | _ =>
    ("not enough values to unpack (expected at least 2, got " ++ Nat.repr args.length ++ ")", book)

/-- The candidate date of §4.4 of the specification, in the specification's
words: the birthday with its year replaced by `today`'s year, recomputed
with year `today.year + 1` when that first candidate is strictly before
`today`. -/
def specCandidate (today b : Date) : Date :=
  if dayDiff ⟨today.year, b.month, b.day⟩ today < 0 then ⟨today.year + 1, b.month, b.day⟩
  else ⟨today.year, b.month, b.day⟩

/-- The specification's reminder window: candidate between 0 and 7 days
after `today`, inclusive. -/
def inWindow (today c : Date) : Prop := 0 ≤ dayDiff c today ∧ dayDiff c today ≤ 7

instance (t c : Date) : Decidable (inWindow t c) := by
  unfold inWindow
  infer_instance

/-- The reminder output according to the specification's words: per record
in input order, skip if no birthday, else include `(name, candidate)` iff
the candidate lies in the window. -/
def specBirthdays (today : Date) (recs : List Record) : List (String × Date) :=
  recs.filterMap (fun r => r.birthday.bind (fun b =>
    let c := specCandidate today b
    if inWindow today c then some (r.name, c) else none))

/-- The `AddressBook` operations of claim C8. -/
inductive BookOp where
  | add (r : Record)
  | find (name : String)
  | delete (name : String)

/-- Effect of one `BookOp` on the book (`find` does not mutate). -/
def applyOp (b : AddressBook) : BookOp → AddressBook
  | .add r => AddressBook.add_record b r
  | .find _ => b
  | .delete n => AddressBook.delete b n

/-- The book state reached from the empty book by a sequence of operations. -/
def runOps (ops : List BookOp) : AddressBook :=
  ops.foldl applyOp []

/-! ### Helper lemmas -/

lemma pyCharIsDigit_of_isDigit (c : Char) (h : c.isDigit = true) : pyCharIsDigit c = true := by
  simp [pyCharIsDigit, h]

lemma string_length_eq (s : String) : s.length = s.data.length := rfl

lemma editPhoneList_error (old new : String) (l : List String) (e : PyErr)
    (h : (editPhoneList old new l).1 = some e) : (editPhoneList old new l).2 = l := by
  induction l with
  | nil => rfl
  | cons p ps ih =>
    by_cases hp : p = old
    · simp only [editPhoneList, if_pos hp] at h ⊢
      cases hv : mkPhone new with
      | error e0 => simp [hv]
      | ok v => simp [hv] at h
    · simp only [editPhoneList, if_neg hp] at h ⊢
      rw [ih h]

lemma editPhoneList_not_mem (old new : String) (l : List String) (h : old ∉ l) :
    editPhoneList old new l = (some (.valueError notFoundMsg), l) := by
  induction l with
  | nil => rfl
  | cons p ps ih =>
    have hp : ¬ p = old := fun hc => h (hc ▸ List.mem_cons_self p ps)
    have hps : old ∉ ps := fun hc => h (List.mem_cons_of_mem p hc)
    simp only [editPhoneList, if_neg hp, ih hps]

lemma editPhoneList_mem_err (old new : String) (e : PyErr) (l : List String)
    (hm : old ∈ l) (he : mkPhone new = .error e) :
    editPhoneList old new l = (some e, l) := by
  induction l with
  | nil => cases hm
  | cons p ps ih =>
    by_cases hp : p = old
    · simp only [editPhoneList, if_pos hp, he]
    · have hm' : old ∈ ps := by
        cases List.mem_cons.mp hm with
        | inl h0 => exact absurd h0.symm hp
        | inr h0 => exact h0
      simp only [editPhoneList, if_neg hp, ih hm']

lemma editPhoneList_mem_ok (old new v : String) (l : List String)
    (hm : old ∈ l) (hv : mkPhone new = .ok v) :
    editPhoneList old new l = (none, l.set (l.findIdx (fun p => p == old)) v) := by
  induction l with
  | nil => cases hm
  | cons p ps ih =>
    by_cases hp : p = old
    · simp only [editPhoneList, if_pos hp, hv, List.findIdx_cons, hp]
      simp
    · have hm' : old ∈ ps := by
        cases List.mem_cons.mp hm with
        | inl h0 => exact absurd h0.symm hp
        | inr h0 => exact h0
      have hb : (p == old) = false := beq_eq_false_iff_ne.mpr hp
      simp only [editPhoneList, if_neg hp, ih hm', List.findIdx_cons, hb, cond_false,
        List.set_cons_succ]

lemma mkPhone_ok_eq (raw v : String) (h : mkPhone raw = .ok v) : v = raw := by
  unfold mkPhone at h
  split at h
  · cases h
  · cases h
    rfl

lemma editPhoneList_ok_mem_new (old new v : String) (l : List String)
    (hm : old ∈ l) (hv : mkPhone new = .ok v) :
    v ∈ (editPhoneList old new l).2 := by
  induction l with
  | nil => cases hm
  | cons p ps ih =>
    by_cases hp : p = old
    · simp [editPhoneList, if_pos hp, hv]
    · have hm' : old ∈ ps := by
        cases List.mem_cons.mp hm with
        | inl h0 => exact absurd h0.symm hp
        | inr h0 => exact h0
      simp only [editPhoneList, if_neg hp]
      exact List.mem_cons_of_mem p (ih hm')

lemma editPhoneList_ok_not_mem_old (old new v : String) (l : List String)
    (hm : old ∈ l) (hv : mkPhone new = .ok v) (hvne : v ≠ old) (hc : l.count old = 1) :
    old ∉ (editPhoneList old new l).2 := by
  induction l with
  | nil => cases hm
  | cons p ps ih =>
    by_cases hp : p = old
    · simp only [editPhoneList, if_pos hp, hv]
      intro hmem
      cases List.mem_cons.mp hmem with
      | inl h0 => exact hvne h0.symm
      | inr h0 =>
        have hz : ps.count old = 0 := by
          have : (p :: ps).count old = ps.count old + 1 := by
            rw [List.count_cons]
            simp [hp]
          omega
        exact (List.count_eq_zero.mp hz) h0
    · have hm' : old ∈ ps := by
        cases List.mem_cons.mp hm with
        | inl h0 => exact absurd h0.symm hp
        | inr h0 => exact h0
      have hc' : ps.count old = 1 := by
        have hbe : (p == old) = false := beq_eq_false_iff_ne.mpr hp
        rw [List.count_cons, hbe] at hc
        simpa using hc
      simp only [editPhoneList, if_neg hp]
      intro hmem
      cases List.mem_cons.mp hmem with
      | inl h0 => exact hp h0.symm
      | inr h0 => exact ih hm' hc' h0

lemma findPhoneList_eq_none_iff (l : List String) (p : String) :
    findPhoneList l p = none ↔ p ∉ l := by
  simp only [findPhoneList, List.find?_eq_none, beq_iff_eq]
  constructor
  · intro h hmem
    exact h p hmem rfl
  · intro h x hx he
    exact h (he ▸ hx)

lemma dictGet_dictSet_self (b : List (String × Record)) (k : String) (v : Record) :
    dictGet (dictSet b k v) k = some v := by
  induction b with
  | nil => simp [dictSet, dictGet]
  | cons e rest ih =>
    obtain ⟨k0, v0⟩ := e
    by_cases hk : k0 = k
    · simp [dictSet, dictGet, hk]
    · simp [dictSet, dictGet, hk, ih]

/-! ### Claims -/

/-- Claim C7 (confirmed): `remove_phone` is idempotent, removes every
occurrence of the given value, leaves the multiplicity of every other value
unchanged, and is a no-op when the value is absent. -/
theorem remove_phone_spec (r : Record) (p : String) :
    Record.remove_phone (Record.remove_phone r p) p = Record.remove_phone r p ∧
    (Record.remove_phone r p).phones.contains p = false ∧
    (∀ q, q ≠ p → (Record.remove_phone r p).phones.count q = r.phones.count q) ∧
    (r.phones.contains p = false → Record.remove_phone r p = r) := by
  obtain ⟨n, ph, bd⟩ := r
  refine ⟨?_, ?_, ?_, ?_⟩
  · simp [Record.remove_phone, List.filter_filter]
  · simp only [Record.remove_phone, List.contains_eq_any_beq, List.any_eq_false]
    intro x hx
    have h3 : x ≠ p := bne_iff_ne.mp (List.mem_filter.mp hx).2
    simp only [beq_iff_eq]
    exact fun hc => h3 hc.symm
  · intro q hq
    simp only [Record.remove_phone]
    exact List.count_filter (by simpa [bne_iff_ne] using hq)
  · intro h
    have hnm : p ∉ ph := by
      intro hmem
      rw [List.contains_eq_any_beq, List.any_eq_false] at h
      have h0 := h p hmem
      simp at h0
    simp only [Record.remove_phone, Record.mk.injEq, true_and, and_true]
    exact List.filter_eq_self.mpr fun a ha => bne_iff_ne.mpr fun hc => hnm (hc ▸ ha)

/-- Witness for C7 at a concrete record, discharging the hypotheses of the
conditional conjuncts. -/
theorem remove_phone_spec_witness :
    Record.remove_phone (Record.remove_phone ⟨"A", ["0123456789"], none⟩ "5") "5" =
      Record.remove_phone ⟨"A", ["0123456789"], none⟩ "5" ∧
    (Record.remove_phone ⟨"A", ["0123456789"], none⟩ "5").phones.contains "5" = false ∧
    (Record.remove_phone ⟨"A", ["0123456789"], none⟩ "5").phones.count "0123456789" =
      (Record.mk "A" ["0123456789"] none).phones.count "0123456789" ∧
    Record.remove_phone ⟨"A", ["0123456789"], none⟩ "5" = ⟨"A", ["0123456789"], none⟩ :=
  ⟨(remove_phone_spec ⟨"A", ["0123456789"], none⟩ "5").1,
   (remove_phone_spec ⟨"A", ["0123456789"], none⟩ "5").2.1,
   (remove_phone_spec ⟨"A", ["0123456789"], none⟩ "5").2.2.1 "0123456789" (by decide),
   (remove_phone_spec ⟨"A", ["0123456789"], none⟩ "5").2.2.2 (by decide)⟩

/-- Claim C9 (confirmed): `edit_phone` is atomic on failure — whenever it
raises (old phone missing, or new phone failing validation), the phone list
is exactly what it was before the call. -/
theorem edit_phone_atomic (r : Record) (old new : String) (e : PyErr)
    (h : (Record.edit_phone r old new).1 = some e) :
    (Record.edit_phone r old new).2 = r := by
  obtain ⟨n, ph, bd⟩ := r
  simp only [Record.edit_phone] at h ⊢
  rw [editPhoneList_error old new ph e h]

/-- Witness for C9: editing with an invalid new number raises and leaves the
record unchanged. -/
theorem edit_phone_atomic_witness :
    (Record.edit_phone ⟨"A", ["0123456789"], none⟩ "0123456789" "12").2 =
      ⟨"A", ["0123456789"], none⟩ :=
  edit_phone_atomic ⟨"A", ["0123456789"], none⟩ "0123456789" "12"
    (.numberVerificationError phoneDigitsMsg) rfl

/-- Counterexample to claim C3 as stated: a string of ten non-ASCII Unicode
digit characters (`²`, U+00B2, for which Python's `str.isdigit` returns
true) is accepted by the `Phone` constructor, although the claim requires
every string other than ten ASCII digits to fail. -/
theorem phone_accepts_unicode_digits :
    mkPhone (String.mk (List.replicate 10 '²')) = .ok (String.mk (List.replicate 10 '²')) ∧
    (String.mk (List.replicate 10 '²')).data.all Char.isDigit = false ∧
    (String.mk (List.replicate 10 '²')).length = 10 :=
  ⟨rfl, rfl, rfl⟩

/-- Claim C3 as amended: every string of exactly ten ASCII digits is
accepted with its value unchanged, and construction fails exactly when the
string is not ten Python-digit characters (`str.isdigit` also accepts
non-ASCII Unicode digits, so those strings succeed as well). -/
theorem phone_validation_spec (s : String) :
    (s.data.all Char.isDigit = true → s.length = 10 → mkPhone s = .ok s) ∧
    (pyIsDigit s = false ∨ s.length ≠ 10 →
      mkPhone s = .error (.numberVerificationError phoneDigitsMsg)) ∧
    (pyIsDigit s = true → s.length = 10 → mkPhone s = .ok s) := by
  refine ⟨?_, ?_, ?_⟩
  · intro hall hlen
    have hne : s.data.isEmpty = false := by
      rw [string_length_eq] at hlen
      cases hd : s.data with
      | nil => rw [hd] at hlen; simp at hlen
      | cons a l => simp [hd]
    have hdig : pyIsDigit s = true := by
      simp only [pyIsDigit, hne, Bool.not_false, Bool.true_and, List.all_eq_true]
      intro c hc
      exact pyCharIsDigit_of_isDigit c ((List.all_eq_true.mp hall) c hc)
    simp [mkPhone, hdig, hlen]
  · intro h
    rcases h with h | h
    · simp [mkPhone, h]
    · simp [mkPhone, bne_iff_ne, h]
  · intro hdig hlen
    simp [mkPhone, hdig, hlen]

/-- Witness for C3 at concrete strings: a valid ten-digit number succeeds
unchanged and a short string fails. -/
theorem phone_validation_spec_witness :
    mkPhone "0123456789" = .ok "0123456789" ∧
    mkPhone "123" = .error (.numberVerificationError phoneDigitsMsg) :=
  ⟨(phone_validation_spec "0123456789").1 (by decide) (by decide),
   (phone_validation_spec "123").2.1 (Or.inr (by decide))⟩

/-- Claim C5 (code bug, as the specification itself notes): for a February 29
birthday and a reference date whose candidate year is not a leap year, the
code does not adjust the candidate; `date.replace` raises `ValueError` and
the whole `birthdays` command returns the bare exception message instead of
any reminder list. -/
theorem birthdays_feb29_failure :
    birthdays ⟨2025, 2, 20⟩ [] [("Bob", ⟨"Bob", [], some ⟨2000, 2, 29⟩⟩)] =
      "day is out of range for month" ∧
    isLeap 2025 = false :=
  ⟨rfl, rfl⟩

/-- Counterexample to claim C2 as stated: `birthdays` does not receive the
reference date as an explicit parameter — it reads the global clock — so
with identical explicit inputs (`args`, `book`) its output differs between
two clock readings. -/
theorem birthdays_reads_clock :
    birthdays ⟨2024, 3, 10⟩ [] [("Bob", ⟨"Bob", [], some ⟨1990, 3, 12⟩⟩)] ≠
    birthdays ⟨2024, 6, 10⟩ [] [("Bob", ⟨"Bob", [], some ⟨1990, 3, 12⟩⟩)] := by
  decide

/-- Claim C2 as amended: the reference date is read from the global clock
rather than passed as a parameter, so the output varies with the clock even
for a fixed book; for a fixed clock reading and fixed book state the
computation is deterministic. -/
theorem birthdays_deterministic_for_fixed_clock (d : Date) (a : List String)
    (b₁ b₂ : AddressBook) (h : b₁ = b₂) :
    birthdays d a b₁ = birthdays d a b₂ ∧
    ∃ d₁ d₂ b, birthdays d₁ a b ≠ birthdays d₂ a b := by
  constructor
  · rw [h]
  · refine ⟨⟨2024, 3, 10⟩, ⟨2024, 6, 10⟩, [("Bob", ⟨"Bob", [], some ⟨1990, 3, 12⟩⟩)], ?_⟩
    simp only [birthdays]
    decide

/-- Witness for C2 at a concrete book. -/
theorem birthdays_deterministic_for_fixed_clock_witness :
    birthdays ⟨2024, 3, 10⟩ [] [("Bob", ⟨"Bob", [], some ⟨1990, 3, 12⟩⟩)] =
      birthdays ⟨2024, 3, 10⟩ [] [("Bob", ⟨"Bob", [], some ⟨1990, 3, 12⟩⟩)] ∧
    ∃ d₁ d₂ b, birthdays d₁ [] b ≠ birthdays d₂ [] b :=
  birthdays_deterministic_for_fixed_clock ⟨2024, 3, 10⟩ []
    [("Bob", ⟨"Bob", [], some ⟨1990, 3, 12⟩⟩)]
    [("Bob", ⟨"Bob", [], some ⟨1990, 3, 12⟩⟩)] rfl

/-- Counterexample to claim C10 as stated: the empty string fails phone
validation, yet `add_contact` with a fresh name and an empty phone string
returns "Contact added." (the truthiness check skips validation), not the
phone-validation error message — while still inserting the record. -/
theorem add_contact_empty_phone_message :
    add_contact ["Alice", ""] [] =
      ("Contact added.", [("Alice", ⟨"Alice", [], none⟩)]) ∧
    mkPhone "" = .error (.numberVerificationError phoneDigitsMsg) :=
  ⟨rfl, rfl⟩

/-- Claim C10 as amended: for every fresh nonempty name and every *nonempty*
phone string failing validation, `add_contact` inserts a new record with an
empty phone list even though it returns the phone-validation error message
rather than "Contact added.". -/
theorem add_contact_inserts_on_invalid_phone (book : AddressBook)
    (name phone : String) (rest : List String)
    (hfind : AddressBook.find book name = none) (hname : name ≠ "") (hph : phone ≠ "")
    (hinv : mkPhone phone = .error (.numberVerificationError phoneDigitsMsg)) :
    add_contact (name :: phone :: rest) book =
      (phoneDigitsMsg, dictSet book name ⟨name, [], none⟩) ∧
    AddressBook.find (dictSet book name ⟨name, [], none⟩) name = some ⟨name, [], none⟩ := by
  constructor
  · simp only [add_contact, hfind, if_neg hname, if_neg hph, hinv]
    rfl
  · exact dictGet_dictSet_self book name ⟨name, [], none⟩

/-- Witness for C10 at a concrete book and phone string. -/
theorem add_contact_inserts_on_invalid_phone_witness :
    add_contact ["Alice", "12ab"] [] =
      (phoneDigitsMsg, dictSet [] "Alice" ⟨"Alice", [], none⟩) ∧
    AddressBook.find (dictSet [] "Alice" ⟨"Alice", [], none⟩) "Alice" =
      some ⟨"Alice", [], none⟩ :=
  add_contact_inserts_on_invalid_phone [] "Alice" "12ab" [] rfl (by decide) (by decide) rfl

/-- Counterexample to claim C6 as stated: with the phone stored twice,
`edit_phone` replaces only the first occurrence (the loop returns at the
first match), so `find_phone(old)` still returns a phone, not null, even
though old ≠ new, old was present and new is valid. -/
theorem edit_phone_duplicate_old_remains :
    (Record.edit_phone ⟨"A", ["1234567890", "1234567890"], none⟩
        "1234567890" "0987654321").1 = none ∧
    (Record.edit_phone ⟨"A", ["1234567890", "1234567890"], none⟩
        "1234567890" "0987654321").2.phones = ["0987654321", "1234567890"] ∧
    Record.find_phone
      (Record.edit_phone ⟨"A", ["1234567890", "1234567890"], none⟩
        "1234567890" "0987654321").2 "1234567890" = some "1234567890" :=
  ⟨rfl, rfl, rfl⟩

/-- Claim C6 as amended: when the old phone is present and the new one is
valid, `edit_phone` succeeds, replacing the first occurrence in place (the
element at its first index), after which `find_phone(new)` finds a phone
and — provided the old value occurred exactly once — `find_phone(old)`
returns null; a missing old phone raises the not-found `ValueError`
(leaving the record unchanged), and an invalid new phone propagates the
`NumberVerificationError`. -/
theorem edit_phone_spec (r : Record) (old new : String) (hne : old ≠ new) :
    (old ∈ r.phones → mkPhone new = .ok new →
      (Record.edit_phone r old new).1 = none ∧
      (Record.edit_phone r old new).2.phones =
        r.phones.set (r.phones.findIdx (fun p => p == old)) new ∧
      Record.find_phone (Record.edit_phone r old new).2 new ≠ none ∧
      (r.phones.count old = 1 →
        Record.find_phone (Record.edit_phone r old new).2 old = none)) ∧
    (old ∉ r.phones →
      (Record.edit_phone r old new).1 = some (.valueError notFoundMsg) ∧
      (Record.edit_phone r old new).2 = r) ∧
    (old ∈ r.phones → mkPhone new = .error (.numberVerificationError phoneDigitsMsg) →
      (Record.edit_phone r old new).1 = some (.numberVerificationError phoneDigitsMsg)) := by
  obtain ⟨n, ph, bd⟩ := r
  refine ⟨?_, ?_, ?_⟩
  · intro hm hv
    have hrun := editPhoneList_mem_ok old new new ph hm hv
    refine ⟨?_, ?_, ?_, ?_⟩
    · simp [Record.edit_phone, hrun]
    · simp [Record.edit_phone, hrun]
    · have hmem : new ∈ (editPhoneList old new ph).2 :=
        editPhoneList_ok_mem_new old new new ph hm hv
      simp only [Record.edit_phone, Record.find_phone]
      intro hc
      exact ((findPhoneList_eq_none_iff _ new).mp hc) hmem
    · intro hcount
      have hnm : old ∉ (editPhoneList old new ph).2 :=
        editPhoneList_ok_not_mem_old old new new ph hm hv (fun hx => hne hx.symm) hcount
      simp only [Record.edit_phone, Record.find_phone]
      exact (findPhoneList_eq_none_iff _ old).mpr hnm
  · intro hm
    have hrun := editPhoneList_not_mem old new ph hm
    constructor
    · simp [Record.edit_phone, hrun]
    · simp [Record.edit_phone, hrun]
  · intro hm hv
    have hrun := editPhoneList_mem_err old new _ ph hm hv
    simp [Record.edit_phone, hrun]

/-- Witness for C6, discharging both the success hypotheses (at one record)
and the error hypotheses (at another). -/
theorem edit_phone_spec_witness :
    (Record.edit_phone ⟨"A", ["1234567890"], none⟩ "1234567890" "0987654321").1 = none ∧
    Record.find_phone
      (Record.edit_phone ⟨"A", ["1234567890"], none⟩ "1234567890" "0987654321").2
      "1234567890" = none ∧
    (Record.edit_phone ⟨"A", [], none⟩ "1234567890" "0987654321").1 =
      some (.valueError notFoundMsg) ∧
    (Record.edit_phone ⟨"A", ["1234567890"], none⟩ "1234567890" "12").1 =
      some (.numberVerificationError phoneDigitsMsg) :=
  ⟨((edit_phone_spec ⟨"A", ["1234567890"], none⟩ "1234567890" "0987654321"
      (by decide)).1 (by decide) rfl).1,
   ((edit_phone_spec ⟨"A", ["1234567890"], none⟩ "1234567890" "0987654321"
      (by decide)).1 (by decide) rfl).2.2.2 (by decide),
   ((edit_phone_spec ⟨"A", [], none⟩ "1234567890" "0987654321"
      (by decide)).2.1 (by decide)).1,
   (edit_phone_spec ⟨"A", ["1234567890"], none⟩ "1234567890" "12"
      (by decide)).2.2 (by decide) rfl⟩

lemma dictSet_all_keys (b : List (String × Record)) (k : String) (v : Record)
    (hb : (b.all fun e => e.1 == e.2.name) = true) (hk : k = v.name) :
    ((dictSet b k v).all fun e => e.1 == e.2.name) = true := by
  induction b with
  | nil => simp [dictSet, hk]
  | cons e rest ih =>
    obtain ⟨k0, v0⟩ := e
    rw [List.all_cons] at hb
    have hb1 := (Bool.and_eq_true _ _ |>.mp hb).1
    have hb2 := (Bool.and_eq_true _ _ |>.mp hb).2
    by_cases hke : k0 = k
    · simp only [dictSet, if_pos hke, List.all_cons, hb2, Bool.and_true]
      simp [hke, hk]
    · simp only [dictSet, if_neg hke, List.all_cons, ih hb2, Bool.and_true]
      exact hb1

lemma dictDel_all_keys (b : List (String × Record)) (k : String)
    (hb : (b.all fun e => e.1 == e.2.name) = true) :
    ((dictDel b k).all fun e => e.1 == e.2.name) = true := by
  induction b with
  | nil => simp [dictDel]
  | cons e rest ih =>
    obtain ⟨k0, v0⟩ := e
    rw [List.all_cons] at hb
    have hb1 := (Bool.and_eq_true _ _ |>.mp hb).1
    have hb2 := (Bool.and_eq_true _ _ |>.mp hb).2
    by_cases hke : k0 = k
    · simpa [dictDel, hke] using hb2
    · simp only [dictDel, if_neg hke, List.all_cons, ih hb2, Bool.and_true]
      exact hb1

lemma applyOp_all_keys (b : AddressBook) (op : BookOp)
    (hb : (b.all fun e => e.1 == e.2.name) = true) :
    ((applyOp b op).all fun e => e.1 == e.2.name) = true := by
  cases op with
  | add r => exact dictSet_all_keys b r.name r hb rfl
  | find _ => exact hb
  | delete nm => exact dictDel_all_keys b nm hb

lemma foldl_applyOp_all_keys (ops : List BookOp) (b : AddressBook)
    (hb : (b.all fun e => e.1 == e.2.name) = true) :
    ((ops.foldl applyOp b).all fun e => e.1 == e.2.name) = true := by
  induction ops generalizing b with
  | nil => exact hb
  | cons op rest ih => exact ih (applyOp b op) (applyOp_all_keys b op hb)

/-- Claim C8 (confirmed): in every `AddressBook` state reachable from the
empty book by `add_record` / `find` / `delete`, every key equals the name
of the record it maps to. -/
theorem address_book_key_invariant (ops : List BookOp) :
    ((runOps ops).all fun e => e.1 == e.2.name) = true :=
  foldl_applyOp_all_keys ops [] rfl

lemma replaceYear_ok_eq (b : Date) (y : Nat) (c : Date)
    (h : replaceYear b y = .ok c) : c = ⟨y, b.month, b.day⟩ := by
  unfold replaceYear at h
  split at h
  · cases h
  · split at h
    · cases h
      rfl
    · cases h

/-- Claim C1 (confirmed): under the side condition that the year
substitutions the loop actually performs are constructible dates — the
`today.year` substitution always, the `today.year + 1` substitution only
when the first candidate is strictly before today (claim C5 covers the
failing February 29 cases; completing February 29 runs, such as a leap
reference year with the birthday still ahead, are covered here) — the
record loop of `birthdays` returns exactly the specification's list: a
record with a birthday is included iff its candidate date lies 0 to 7 days
after today, records without a birthday are skipped, and output order is
input order.  The conjuncts also check the specification's three concrete
examples and a completing February 29 run. -/
theorem birthdays_window_spec (today : Date) (recs : List Record)
    (H : ∀ r ∈ recs, ∀ b, r.birthday = some b →
      ∃ c, replaceYear b today.year = .ok c ∧
        (dayDiff c today < 0 → ∃ c2, replaceYear b (today.year + 1) = .ok c2)) :
    birthdaysCore today recs = .ok (specBirthdays today recs) ∧
    birthdaysCore ⟨2024, 3, 10⟩ [⟨"A", [], some ⟨1990, 3, 12⟩⟩] =
      .ok [("A", ⟨2024, 3, 12⟩)] ∧
    birthdaysCore ⟨2024, 3, 10⟩ [⟨"B", [], some ⟨1990, 3, 5⟩⟩] = .ok [] ∧
    birthdaysCore ⟨2024, 12, 30⟩ [⟨"C", [], some ⟨1995, 1, 2⟩⟩] =
      .ok [("C", ⟨2025, 1, 2⟩)] ∧
    birthdaysCore ⟨2024, 2, 22⟩ [⟨"D", [], some ⟨2000, 2, 29⟩⟩] =
      .ok [("D", ⟨2024, 2, 29⟩)] := by
  refine ⟨?_, rfl, rfl, rfl, rfl⟩
  induction recs with
  | nil => rfl
  | cons r rs ih =>
    have Hr := H r (List.mem_cons_self r rs)
    have Hrs : ∀ r' ∈ rs, ∀ b, r'.birthday = some b →
        ∃ c, replaceYear b today.year = .ok c ∧
          (dayDiff c today < 0 → ∃ c2, replaceYear b (today.year + 1) = .ok c2) :=
      fun r' hr' => H r' (List.mem_cons_of_mem r hr')
    have ih' := ih Hrs
    cases hb : r.birthday with
    | none =>
      simp only [birthdaysCore, hb, ih', specBirthdays, List.filterMap_cons,
        Option.bind_eq_bind, Option.none_bind]
    | some b =>
      obtain ⟨c1, hc1, himp⟩ := Hr b hb
      have e1 : c1 = ⟨today.year, b.month, b.day⟩ := replaceYear_ok_eq _ _ _ hc1
      subst e1
      by_cases hneg : dayDiff ⟨today.year, b.month, b.day⟩ today < 0
      · obtain ⟨c2, hc2⟩ := himp hneg
        have e2 : c2 = ⟨today.year + 1, b.month, b.day⟩ := replaceYear_ok_eq _ _ _ hc2
        subst e2
        simp only [birthdaysCore, hb, hc1, if_pos hneg, hc2, ih', specBirthdays,
          List.filterMap_cons, Option.bind_eq_bind, Option.some_bind, specCandidate,
          inWindow]
        by_cases hw : 0 ≤ dayDiff ⟨today.year + 1, b.month, b.day⟩ today ∧
            dayDiff ⟨today.year + 1, b.month, b.day⟩ today ≤ 7
        · simp [hneg, hw, specBirthdays]
        · simp [hneg, hw, specBirthdays]
      · simp only [birthdaysCore, hb, hc1, if_neg hneg, ih', specBirthdays,
          List.filterMap_cons, Option.bind_eq_bind, Option.some_bind, specCandidate,
          inWindow]
        by_cases hw : 0 ≤ dayDiff ⟨today.year, b.month, b.day⟩ today ∧
            dayDiff ⟨today.year, b.month, b.day⟩ today ≤ 7
        · simp [hneg, hw, specBirthdays]
        · simp [hneg, hw, specBirthdays]

/-- Witness for C1 at a completing February 29 run: leap reference year
2024, birthday 29.02.2000, included with day difference 7; the year+1
substitution is never executed, so the side condition holds. -/
theorem birthdays_window_spec_witness :
    birthdaysCore ⟨2024, 2, 22⟩ [⟨"D", [], some ⟨2000, 2, 29⟩⟩] =
      .ok (specBirthdays ⟨2024, 2, 22⟩ [⟨"D", [], some ⟨2000, 2, 29⟩⟩]) :=
  (birthdays_window_spec ⟨2024, 2, 22⟩ [⟨"D", [], some ⟨2000, 2, 29⟩⟩]
    (by
      intro r hr b hbb
      rw [List.mem_singleton] at hr
      subst hr
      simp only at hbb
      cases hbb
      exact ⟨⟨2024, 2, 29⟩, rfl, fun hc => absurd hc (by decide)⟩)).1

lemma isNd_digitChar (k : Nat) (h : k < 10) : isNd (Nat.digitChar k) = true := by
  interval_cases k <;> rfl

lemma ndVal_digitChar (k : Nat) (h : k < 10) : ndVal (Nat.digitChar k) = k := by
  interval_cases k <;> rfl

lemma daysInMonth_le_31 (y m : Nat) : daysInMonth y m ≤ 31 := by
  unfold daysInMonth
  split_ifs <;> omega

lemma parseDay_pad2 (n : Nat) (h1 : 1 ≤ n) (h2 : n ≤ 31) (rest : List Char) :
    parseDay (pad2 n ++ rest) = some (n, rest) := by
  interval_cases n <;> rfl

lemma parseMonth_pad2 (n : Nat) (h1 : 1 ≤ n) (h2 : n ≤ 12) (rest : List Char) :
    parseMonth (pad2 n ++ rest) = some (n, rest) := by
  interval_cases n <;> rfl

lemma parse4_pad4 (y : Nat) (h : y ≤ 9999) : parse4 (pad4 y) = some y := by
  have ha : y / 1000 < 10 := by omega
  have hb : y / 100 % 10 < 10 := by omega
  have hc : y / 10 % 10 < 10 := by omega
  have hd : y % 10 < 10 := by omega
  simp only [pad4, parse4, isNd_digitChar _ ha, isNd_digitChar _ hb,
    isNd_digitChar _ hc, isNd_digitChar _ hd, Bool.and_self, Bool.true_and,
    if_true, ndVal_digitChar _ ha, ndVal_digitChar _ hb, ndVal_digitChar _ hc,
    ndVal_digitChar _ hd]
  have e1 : y / 100 / 10 = y / 1000 := by rw [Nat.div_div_eq_div_mul]
  have e2 : y / 10 / 10 = y / 100 := by rw [Nat.div_div_eq_div_mul]
  congr 1
  omega

lemma parseDMY_valid (s : String) (d0 : Date) (h : parseDMY s = some d0) :
    validDate d0 = true := by
  unfold parseDMY at h
  repeat' split at h
  all_goals cases h
  all_goals assumption

/-- Counterexample to claim C4 as stated: the string "5.3.1990" is not in
zero-padded DD.MM.YYYY form (the canonical rendering of the date it denotes
is "05.03.1990"), yet `Birthday` accepts it — CPython's `strptime` treats
leading zeros as optional for `%d` and `%m`. -/
theorem birthday_accepts_unpadded :
    mkBirthday "5.3.1990" = .ok ⟨1990, 3, 5⟩ ∧
    fmtDMY ⟨1990, 3, 5⟩ = "05.03.1990" ∧
    "05.03.1990" ≠ "5.3.1990" :=
  ⟨rfl, rfl, by decide⟩

/-- Claim C4 as amended: `Birthday` accepts exactly the strings matched by
CPython's `%d.%m.%Y` pattern that denote real calendar dates — day of one
or two digits (leading zero optional; the second digit of a 10–29 day may
be any Unicode decimal digit), month of one or two digits, a dot between
fields, and exactly four Unicode decimal digits of year.  Universally:
every accepted string denotes a valid calendar date (impossible dates are
never constructed), every rejection raises the fixed `ValueError`, and for
every valid date the canonical zero-padded `DD.MM.YYYY` rendering is
accepted and round-trips exactly.  Sample conjuncts: unpadded "5.3.1990"
and mixed-digit "1٢.03.1990" succeed; impossible "31.02.2024" and
misformatted "12-03-1990" fail. -/
theorem birthday_roundtrip_spec (d : Date) (h : validDate d = true) :
    mkBirthday (fmtDMY d) = .ok d ∧
    (∀ s d0, mkBirthday s = .ok d0 → validDate d0 = true) ∧
    (∀ s, (∃ d0, mkBirthday s = .ok d0) ∨
      mkBirthday s = .error (.valueError invalidDateMsg)) ∧
    mkBirthday "5.3.1990" = .ok ⟨1990, 3, 5⟩ ∧
    mkBirthday "1٢.03.1990" = .ok ⟨1990, 3, 12⟩ ∧
    mkBirthday "31.02.2024" = .error (.valueError invalidDateMsg) ∧
    mkBirthday "12-03-1990" = .error (.valueError invalidDateMsg) := by
  refine ⟨?_, ?_, ?_, rfl, rfl, rfl, rfl⟩
  · obtain ⟨y, m, dd⟩ := d
    have hv := h
    simp only [validDate, decide_eq_true_eq] at hv
    obtain ⟨hy1, hy2, hm1, hm2, hd1, hd2⟩ := hv
    have hd31 : dd ≤ 31 := le_trans hd2 (daysInMonth_le_31 y m)
    have hs : (fmtDMY ⟨y, m, dd⟩).data =
        pad2 dd ++ ('.' :: (pad2 m ++ ('.' :: pad4 y))) := by
      show (pad2 dd ++ '.' :: pad2 m) ++ '.' :: pad4 y = _
      rw [List.append_assoc, List.cons_append]
    simp only [mkBirthday, parseDMY, hs,
      parseDay_pad2 dd hd1 hd31,
      parseMonth_pad2 m hm1 hm2,
      parse4_pad4 y hy2, h, if_true]
  · intro s d0 h0
    unfold mkBirthday at h0
    cases hp : parseDMY s with
    | none => rw [hp] at h0; cases h0
    | some dp =>
      rw [hp] at h0
      injection h0 with h2
      subst h2
      exact parseDMY_valid s dp hp
  · intro s
    cases hp : parseDMY s with
    | none => exact Or.inr (by simp [mkBirthday, hp])
    | some dp => exact Or.inl ⟨dp, by simp [mkBirthday, hp]⟩

/-- Witness for C4: the round trip at a concrete valid date, and the
validity conjunct discharged at a concrete accepted string. -/
theorem birthday_roundtrip_spec_witness :
    mkBirthday (fmtDMY ⟨1990, 3, 5⟩) = .ok ⟨1990, 3, 5⟩ ∧
    validDate ⟨1990, 3, 5⟩ = true :=
  ⟨(birthday_roundtrip_spec ⟨1990, 3, 5⟩ (by decide)).1,
   (birthday_roundtrip_spec ⟨1990, 3, 5⟩ (by decide)).2.1 "05.03.1990" ⟨1990, 3, 5⟩ rfl⟩
